import Mathlib

/-!
Verification of the asynchronous transcription core of the
audio-transcription repository: a shallow embedding of the job data model
(internal/types), the worker pool and pipeline orchestrator
(internal/queue), the Whisper transcriber result conversion
(internal/transcription) and the temp-file janitor (internal/cleanup),
together with theorems about the embedded operations.
-/

namespace AudioTranscription

/-! Job status constants, from internal/types (status is a Go string). -/

def statusQueued : String := "QUEUED"

def statusProcessing : String := "PROCESSING"

def statusCompleted : String := "COMPLETED"

def statusFailed : String := "FAILED"

/-- Rank of a status in the lifecycle order Queued → Processing → terminal.
Terminal states (Completed, Failed) share the top rank; unknown strings are
ranked above everything. -/
def statusRank (s : String) : Nat :=
  if s = statusQueued then 0
  else if s = statusProcessing then 1
  else if s = statusCompleted then 2
  else if s = statusFailed then 2
  else 3

/-- Segment of a transcription, from internal/types (Start, End, Text).
Timestamps are modelled as rationals; the source field End is named
endTime here because end is a Lean keyword. -/
structure Segment where
  start : Rat
  endTime : Rat
  text : String
deriving DecidableEq

/-- TranscriptionResult, from internal/types. Go zero values ("" and 0)
are the field defaults, matching a freshly constructed result.
ProcessedAt (a time.Time in the source) is modelled as a Nat tick. -/
structure TranscriptionResult where
  jobID : String := ""
  text : String := ""
  language : String := ""
  duration : Rat := 0
  segments : List Segment := []
  wordCount : Nat := 0
  processedAt : Nat := 0
  localPath : String := ""
  gdriveURL : String := ""
deriving DecidableEq

/-- Job, from internal/queue/jobs.go. Error is modelled as the error's
message string; CreatedAt is omitted (no claim mentions it). The mutable
Status field is modelled by the status traces produced below rather than
stored here. -/
structure Job where
  id : String
  requestName : String
  sourceType : String
  filePath : String
deriving DecidableEq

/-- Whitespace test of Go's unicode.IsSpace, used by strings.Fields and
strings.TrimSpace: '\t', '\n', '\v', '\f', '\r', ' ', U+0085, U+00A0 and
the Unicode White_Space code points. -/
def goIsSpace (c : Char) : Bool :=
  c = ' ' || c = '\t' || c = '\n' || c = '\x0b' || c = '\x0c' || c = '\r' ||
  c = '\x85' || c = '\xa0' ||
  c = '\u1680' || ('\u2000' ≤ c && c ≤ '\u200a') ||
  c = '\u2028' || c = '\u2029' || c = '\u202f' || c = '\u205f' || c = '\u3000'

/-- Go's strings.Fields: the maximal runs of non-whitespace characters of
the string, in order. -/
def stringFields (s : String) : List String :=
  ((s.data.splitOnP goIsSpace).filter (fun l => l ≠ [])).map String.mk

/-- Go's strings.TrimSpace: drop leading and trailing whitespace. -/
def trimSpace (s : String) : String :=
  String.mk (((s.data.dropWhile goIsSpace).reverse.dropWhile goIsSpace).reverse)

/-- Outcome of one blocking stage-adapter call: a returned value, a returned
Go error (its message), or an unexpected runtime fault (a Go panic with its
value rendered as a string). The panic outcome models a fault raised inside
the call; statements before the call have already executed. -/
inductive CallOutcome (A : Type) where
  | ok (val : A)
  | goError (msg : String)
  | panicked (msg : String)
deriving DecidableEq

/-- The success shape of WhisperTranscriber.Transcribe per the collaborator
contract: text, language, duration and segments; all other
TranscriptionResult fields are Go zero values at that point. -/
structure TranscriberOutput where
  text : String
  language : String
  duration : Rat
  segments : List Segment
deriving DecidableEq

/-- Environment of one processJob run: the outcome of each collaborator
call the pipeline may make, whether the optional Drive client and metadata
DB are configured, and the current time used to stamp ProcessedAt.
upload gives the outcome of the n-th Drive upload attempt (1-based). -/
structure Env where
  normalize : CallOutcome String
  transcribe : CallOutcome TranscriberOutput
  saveLocal : CallOutcome String
  hasDriveClient : Bool
  upload : Nat → CallOutcome String
  hasDB : Bool
  saveMeta : CallOutcome Unit
  now : Nat

/-- Result of the bounded Drive upload retry loop. -/
inductive UploadResult where
  | success (url : String)
  | exhausted
  | panicked (msg : String)
deriving DecidableEq

/-- Observable record of one run of the retry loop: how many times Upload
was invoked, the sleeps performed between attempts (in seconds), and how
the loop ended. -/
structure RetryRun where
  calls : Nat
  sleeps : List Nat
  outcome : UploadResult
deriving DecidableEq

/-- The Drive upload retry loop of processJob, unrolled: for attempt from 1
to 3, call Upload; on success break; otherwise, if attempt < 3, sleep
attempt*attempt seconds and try again. A panic escapes the loop. -/
def retryUpload (f : Nat → CallOutcome String) : RetryRun :=
  match f 1 with
  | .ok url => ⟨1, [], .success url⟩
  | .panicked m => ⟨1, [], .panicked m⟩
  | .goError _ =>
    match f 2 with
    | .ok url => ⟨2, [1 * 1], .success url⟩
    | .panicked m => ⟨2, [1 * 1], .panicked m⟩
    | .goError _ =>
      match f 3 with
      | .ok url => ⟨3, [1 * 1, 2 * 2], .success url⟩
      | .panicked m => ⟨3, [1 * 1, 2 * 2], .panicked m⟩
      | .goError _ => ⟨3, [1 * 1, 2 * 2], .exhausted⟩

/-- cleanupTempFile of the worker pool: a no-op on the empty path, otherwise
it removes the file (os.Remove; a missing file is tolerated). The model
returns the list of paths effectively removed. -/
def cleanupTempFile (filePath : String) : List String :=
  if filePath = "" then [] else [filePath]

/-- Everything observable about processing one job: the statuses assigned to
job.Status in order (after Queued), the final job.Error message, the final
value of the pipeline's result variable on the Completed path, the enriched
result value right after the word-count/id/timestamp enrichment, the
normalized artifact created by the Normalizer, the paths removed by
cleanupTempFile calls, the panic recovered by the worker (if any),
which collaborators were invoked, the upload attempt count and sleeps,
and the Drive reference recorded by the retry loop. -/
structure JobRun where
  trace : List String := []
  errMsg : Option String := none
  result : Option TranscriptionResult := none
  enriched : Option TranscriptionResult := none
  normalizedPath : Option String := none
  removed : List String := []
  recovered : Option String := none
  transcriberCalled : Bool := false
  localSinkCalled : Bool := false
  uploadCalls : Nat := 0
  sleeps : List Nat := []
  uploadRecorded : Option String := none
  metaCalled : Bool := false

/-- Steps 5 and 6 of processJob, after the upload phase: optional metadata
save (a returned error is logged only; a panic aborts the run), removal of
the input artifact, and the transition to Completed. -/
def finishJob (job : Job) (env : Env) (normalizedPath : String)
    (enrichedResult finalResult : TranscriptionResult)
    (up : RetryRun) (uploadRecorded : Option String) : JobRun :=
  match (if env.hasDB then env.saveMeta else CallOutcome.ok ()) with
  | .panicked m =>
      { trace := [statusProcessing]
        recovered := some m
        enriched := some enrichedResult
        normalizedPath := some normalizedPath
        removed := cleanupTempFile normalizedPath
        transcriberCalled := true
        localSinkCalled := true
        uploadCalls := up.calls
        sleeps := up.sleeps
        uploadRecorded := uploadRecorded
        metaCalled := env.hasDB }
  | _ =>
      { trace := [statusProcessing, statusCompleted]
        result := some finalResult
        enriched := some enrichedResult
        normalizedPath := some normalizedPath
        removed := cleanupTempFile job.filePath ++ cleanupTempFile normalizedPath
        transcriberCalled := true
        localSinkCalled := true
        uploadCalls := up.calls
        sleeps := up.sleeps
        uploadRecorded := uploadRecorded
        metaCalled := env.hasDB }

/-- The pipeline orchestrator processJob of internal/queue: set status
Processing; normalize (on error: Failed, detail, remove input); defer
removal of the normalized artifact; transcribe (on error: Failed, detail,
remove input); enrich the result with job id, word count and processed-at
time; save locally (on error: Failed, detail, remove input); if a Drive
client is configured, run the retry loop and record the reference on
success (exhaustion is non-fatal); if a DB is configured, save metadata
(errors logged only); remove the input; set status Completed.
A panic leaves recovered set and the trace at [Processing]; the deferred
normalized-artifact removal still runs while unwinding, and the worker's
recovery (workerStep) adds the Failed status and input removal. -/
def processJob (job : Job) (env : Env) : JobRun :=
  match env.normalize with
  | .panicked m =>
      { trace := [statusProcessing], recovered := some m }
  | .goError e =>
      { trace := [statusProcessing, statusFailed]
        errMsg := some ("Audio normalization failed: " ++ e)
        removed := cleanupTempFile job.filePath }
  | .ok normalizedPath =>
    match env.transcribe with
    | .panicked m =>
        { trace := [statusProcessing]
          recovered := some m
          normalizedPath := some normalizedPath
          removed := cleanupTempFile normalizedPath
          transcriberCalled := true }
    | .goError e =>
        { trace := [statusProcessing, statusFailed]
          errMsg := some ("Transcription failed: " ++ e)
          normalizedPath := some normalizedPath
          removed := cleanupTempFile job.filePath ++ cleanupTempFile normalizedPath
          transcriberCalled := true }
    | .ok t =>
      let result0 : TranscriptionResult :=
        { text := t.text
          language := t.language
          duration := t.duration
          segments := t.segments }
      let result1 : TranscriptionResult :=
        { result0 with
          jobID := job.id
          wordCount := (stringFields result0.text).length
          processedAt := env.now }
      match env.saveLocal with
      | .panicked m =>
          { trace := [statusProcessing]
            recovered := some m
            enriched := some result1
            normalizedPath := some normalizedPath
            removed := cleanupTempFile normalizedPath
            transcriberCalled := true
            localSinkCalled := true }
      | .goError e =>
          { trace := [statusProcessing, statusFailed]
            errMsg := some ("Local save failed: " ++ e)
            enriched := some result1
            normalizedPath := some normalizedPath
            removed := cleanupTempFile job.filePath ++ cleanupTempFile normalizedPath
            transcriberCalled := true
            localSinkCalled := true }
      | .ok localPath =>
        let result2 : TranscriptionResult := { result1 with localPath := localPath }
        let up : RetryRun :=
          if env.hasDriveClient then retryUpload env.upload else ⟨0, [], .exhausted⟩
        match up.outcome with
        | .panicked m =>
            { trace := [statusProcessing]
              recovered := some m
              enriched := some result1
              normalizedPath := some normalizedPath
              removed := cleanupTempFile normalizedPath
              transcriberCalled := true
              localSinkCalled := true
              uploadCalls := up.calls
              sleeps := up.sleeps }
        | .success url =>
            finishJob job env normalizedPath result1
              { result2 with gdriveURL := url } up (some url)
        | .exhausted =>
            finishJob job env normalizedPath result1 result2 up none

/-- One iteration of the worker loop: run processJob inside the deferred
panic-recovery closure. If a panic was recovered, the worker sets the job
to Failed with a synthetic error and removes the job's input artifact. -/
def workerStep (job : Job) (env : Env) : JobRun :=
  let r := processJob job env
  match r.recovered with
  | some m =>
      { r with
        trace := r.trace ++ [statusFailed]
        errMsg := some ("Worker panic: " ++ m)
        removed := r.removed ++ cleanupTempFile job.filePath }
  | none => r

/-- The worker loop: range over the job queue, processing each dequeued job
with the recovery wrapper, until the channel is closed and drained. The
argument is the sequence of jobs this worker dequeues. -/
def worker (jobs : List (Job × Env)) : List JobRun :=
  jobs.map (fun p => workerStep p.1 p.2)

/-- The methods defined on WorkerPool in internal/queue (its entire API
surface): NewWorkerPool aside, these are Start, EnqueueJob, worker,
processJob and cleanupTempFile. -/
inductive WorkerPoolOp where
  | start
  | enqueueJob
  | workerLoop
  | processJobOp
  | cleanupTempFileOp
deriving DecidableEq

/-- Whether a WorkerPool method closes the jobQueue channel. From the
source: Start only launches goroutines, EnqueueJob only sends on the
channel, worker only receives (for … range), processJob and
cleanupTempFile never touch the channel; no method contains a close of
jobQueue. -/
def opClosesQueue : WorkerPoolOp → Bool
  | .start => false
  | .enqueueJob => false
  | .workerLoop => false
  | .processJobOp => false
  | .cleanupTempFileOp => false

/-- A segment of Python Whisper's JSON output, from internal/transcription
(WhisperSegment: id, start, end, text). The source field end is named
endTime here because end is a Lean keyword. -/
structure WhisperSegment where
  id : Int
  start : Rat
  endTime : Rat
  text : String
deriving DecidableEq

/-- Python Whisper's parsed JSON output, from internal/transcription
(WhisperOutput: text, language, segments). -/
structure WhisperOutput where
  text : String
  language : String
  segments : List WhisperSegment
deriving DecidableEq

/-- The conversion tail of WhisperTranscriber.Transcribe: map the parsed
Whisper segments to Segment values with trimmed text, set duration to the
End time of the last segment (0 when there are none), and build the
TranscriptionResult with trimmed text and the reported language. -/
def transcribeConvert (out : WhisperOutput) : TranscriptionResult :=
  let segments : List Segment :=
    out.segments.map (fun seg => ⟨seg.start, seg.endTime, trimSpace seg.text⟩)
  let duration : Rat :=
    match segments.getLast? with
    | some s => s.endTime
    | none => 0
  { text := trimSpace out.text
    language := out.language
    duration := duration
    segments := segments }

/-- A directory entry seen by the janitor's walk of the working directory:
its path, whether it is a directory, its modification time and its size.
Times are modelled as integers in abstract units. -/
structure FileEntry where
  path : String
  isDir : Bool
  modTime : Int
  size : Int
deriving DecidableEq

/-- cleanOldFiles of internal/cleanup: walk the entries, skip directories,
and remove every file whose age now - modTime exceeds maxAge, accumulating
the count and total size removed. Returns the retained entries together
with the count and bytes removed. -/
def cleanOldFiles (now maxAge : Int) : List FileEntry → List FileEntry × Nat × Int
  | [] => ([], 0, 0)
  | f :: rest =>
    let r := cleanOldFiles now maxAge rest
    if f.isDir then (f :: r.1, r.2.1, r.2.2)
    else if now - f.modTime > maxAge then (r.1, r.2.1 + 1, r.2.2 + f.size)
    else (f :: r.1, r.2.1, r.2.2)

/-- A trigger of one janitor sweep: the synchronous sweep Start performs
before creating the ticker, or the n-th ticker tick. -/
inductive SweepTrigger where
  | initial
  | tick (n : Nat)
deriving DecidableEq

/-- The sequence of sweeps performed by Scheduler.Start when the ticker
fires numTicks times before Stop: one initial sweep, then one per tick. -/
def schedulerSweeps (numTicks : Nat) : List SweepTrigger :=
  SweepTrigger.initial :: (List.range numTicks).map SweepTrigger.tick

/-! Helper lemmas. -/

/-- A recovered panic only adds the Failed transition, the synthetic error
and the input-artifact removal; all other observations are those of
processJob. -/
theorem workerStep_of_recover (job : Job) (env : Env) (m : String)
    (h : (processJob job env).recovered = some m) :
    workerStep job env =
      { processJob job env with
        trace := (processJob job env).trace ++ [statusFailed]
        errMsg := some ("Worker panic: " ++ m)
        removed := (processJob job env).removed ++ cleanupTempFile job.filePath } := by
  unfold workerStep
  simp [h]

/-- Without a panic, the worker's recovery wrapper is the identity. -/
theorem workerStep_of_no_recover (job : Job) (env : Env)
    (h : (processJob job env).recovered = none) :
    workerStep job env = processJob job env := by
  unfold workerStep
  simp [h]

/-- Case shape of every processJob run: either it ends with no recovered
panic and a trace of Processing followed by one terminal status, or a panic
was recovered and only Processing was assigned. -/
theorem processJob_cases (job : Job) (env : Env) :
    ((processJob job env).recovered = none ∧
      ((processJob job env).trace = [statusProcessing, statusCompleted] ∨
       (processJob job env).trace = [statusProcessing, statusFailed])) ∨
    (∃ m, (processJob job env).recovered = some m ∧
      (processJob job env).trace = [statusProcessing]) := by
  unfold processJob finishJob
  repeat' split
  all_goals try simp
  all_goals (rcases huo : (retryUpload env.upload).outcome <;> simp [huo])

/-- Every workerStep trace is Processing followed by exactly one terminal
status. -/
theorem workerStep_trace_cases (job : Job) (env : Env) :
    (workerStep job env).trace = [statusProcessing, statusCompleted] ∨
    (workerStep job env).trace = [statusProcessing, statusFailed] := by
  rcases processJob_cases job env with ⟨hr, h | h⟩ | ⟨m, hr, h⟩
  · rw [workerStep_of_no_recover job env hr, h]
    exact Or.inl rfl
  · rw [workerStep_of_no_recover job env hr, h]
    exact Or.inr rfl
  · rw [workerStep_of_recover job env m hr]
    rw [show ({ processJob job env with
        trace := (processJob job env).trace ++ [statusFailed]
        errMsg := some ("Worker panic: " ++ m)
        removed := (processJob job env).removed ++ cleanupTempFile job.filePath } :
        JobRun).trace = (processJob job env).trace ++ [statusFailed] from rfl, h]
    exact Or.inr rfl

/-- The recovery wrapper changes only the trace, the error message and the
removed paths. -/
theorem workerStep_preserves (job : Job) (env : Env) :
    (workerStep job env).result = (processJob job env).result ∧
    (workerStep job env).enriched = (processJob job env).enriched ∧
    (workerStep job env).normalizedPath = (processJob job env).normalizedPath ∧
    (workerStep job env).transcriberCalled = (processJob job env).transcriberCalled ∧
    (workerStep job env).localSinkCalled = (processJob job env).localSinkCalled ∧
    (workerStep job env).uploadCalls = (processJob job env).uploadCalls ∧
    (workerStep job env).sleeps = (processJob job env).sleeps ∧
    (workerStep job env).uploadRecorded = (processJob job env).uploadRecorded := by
  unfold workerStep
  rcases h : (processJob job env).recovered <;> simp [h]

/-- The retry loop calls Upload at most three times. -/
theorem retryUpload_calls_le (f : Nat → CallOutcome String) :
    (retryUpload f).calls ≤ 3 := by
  unfold retryUpload
  repeat' split
  all_goals simp

/-- The retry loop calls Upload at least once. -/
theorem retryUpload_calls_pos (f : Nat → CallOutcome String) :
    1 ≤ (retryUpload f).calls := by
  unfold retryUpload
  repeat' split
  all_goals simp

/-- The sleeps of the retry loop are exactly k*k seconds after the k-th
failed non-final attempt: none after one call, [1] after two, [1, 4] after
three. -/
theorem retryUpload_sleeps (f : Nat → CallOutcome String) :
    (retryUpload f).sleeps =
      (List.range ((retryUpload f).calls - 1)).map (fun k => (k + 1) * (k + 1)) := by
  unfold retryUpload
  repeat' split
  all_goals simp [List.range_succ]

/-- If attempt k (k ≤ 3) succeeds and every earlier attempt returned an
error, the loop stops at attempt k with that url. -/
theorem retryUpload_first_success (f : Nat → CallOutcome String) (k : Nat) (u : String)
    (h1 : 1 ≤ k) (h3 : k ≤ 3) (hk : f k = CallOutcome.ok u)
    (hj : ∀ j, 1 ≤ j → j < k → ∃ e, f j = CallOutcome.goError e) :
    (retryUpload f).calls = k ∧ (retryUpload f).outcome = UploadResult.success u := by
  interval_cases k
  · unfold retryUpload
    rw [hk]
    simp
  · obtain ⟨e1, he1⟩ := hj 1 (by norm_num) (by norm_num)
    unfold retryUpload
    rw [he1, hk]
    simp
  · obtain ⟨e1, he1⟩ := hj 1 (by norm_num) (by norm_num)
    obtain ⟨e2, he2⟩ := hj 2 (by norm_num) (by norm_num)
    unfold retryUpload
    rw [he1, he2, hk]
    simp

/-- Upload-phase observations of processJob: either the loop was never
reached (no calls, no sleeps, nothing recorded), or they are exactly those
of the retry loop, and a successful outcome is recorded. -/
theorem processJob_upload_stats (job : Job) (env : Env)
    (hd : env.hasDriveClient = true) :
    ((processJob job env).uploadCalls = 0 ∧ (processJob job env).sleeps = [] ∧
      (processJob job env).uploadRecorded = none) ∨
    ((processJob job env).uploadCalls = (retryUpload env.upload).calls ∧
     (processJob job env).sleeps = (retryUpload env.upload).sleeps ∧
     (∀ u, (retryUpload env.upload).outcome = UploadResult.success u →
        (processJob job env).uploadRecorded = some u)) := by
  unfold processJob finishJob
  repeat' split
  all_goals try simp [hd]
  all_goals (rcases huo : (retryUpload env.upload).outcome <;> simp [hd, huo])

/-- Membership in the effect of one cleanupTempFile call. -/
theorem mem_cleanupTempFile (p q : String) :
    p ∈ cleanupTempFile q ↔ p = q ∧ q ≠ "" := by
  unfold cleanupTempFile
  split <;> simp_all

/-- The removed paths of every processJob run: with no panic they are the
input-artifact cleanup plus the deferred normalized-artifact cleanup (when
one was created); after a panic only the deferred cleanup has run. -/
theorem processJob_removed (job : Job) (env : Env) :
    ((processJob job env).recovered = none ∧
      (processJob job env).removed =
        cleanupTempFile job.filePath ++
          Option.elim (processJob job env).normalizedPath [] cleanupTempFile) ∨
    ((processJob job env).recovered ≠ none ∧
      (processJob job env).removed =
        Option.elim (processJob job env).normalizedPath [] cleanupTempFile) := by
  unfold processJob finishJob
  repeat' split
  all_goals try simp
  all_goals (rcases huo : (retryUpload env.upload).outcome <;> simp [huo])

/-- Field view of the recovery update: the trace gains the Failed status. -/
theorem workerStep_trace_of_recover (job : Job) (env : Env) (m : String)
    (h : (processJob job env).recovered = some m) :
    (workerStep job env).trace = (processJob job env).trace ++ [statusFailed] := by
  unfold workerStep
  simp [h]

/-- Field view of the recovery update: the synthetic error message. -/
theorem workerStep_errMsg_of_recover (job : Job) (env : Env) (m : String)
    (h : (processJob job env).recovered = some m) :
    (workerStep job env).errMsg = some ("Worker panic: " ++ m) := by
  unfold workerStep
  simp [h]

/-- Field view of the recovery update: the input artifact is also removed. -/
theorem workerStep_removed_of_recover (job : Job) (env : Env) (m : String)
    (h : (processJob job env).recovered = some m) :
    (workerStep job env).removed =
      (processJob job env).removed ++ cleanupTempFile job.filePath := by
  unfold workerStep
  simp [h]

/-- Coverage of a removed-paths list of either orchestrator shape: it
contains the input, contains the normalized artifact when one exists, and
contains nothing else. -/
theorem removed_shape_covers (input : String) (npo : Option String)
    (l : List String)
    (hl : l = cleanupTempFile input ++ Option.elim npo [] cleanupTempFile ∨
          l = Option.elim npo [] cleanupTempFile ++ cleanupTempFile input) :
    (input ≠ "" → input ∈ l) ∧
    (∀ np, npo = some np → np ≠ "" → np ∈ l) ∧
    (∀ p, p ∈ l → p = input ∨ npo = some p) := by
  rcases hl with rfl | rfl <;> rcases npo with _ | np <;> refine ⟨?_, ?_, ?_⟩
  all_goals try simp [mem_cleanupTempFile]
  all_goals try tauto

/-! Claim theorems. -/

/-- C1: for every submitted job, on every execution path (including the
worker's panic-recovery path) the status assignments are exactly
Queued, Processing and one terminal status (Completed or Failed); the
sequence is strictly increasing in lifecycle rank, so no state is entered
twice and no transition regresses. -/
theorem submitted_job_status_monotonic (job : Job) (env : Env) :
    ((statusQueued :: (workerStep job env).trace =
        [statusQueued, statusProcessing, statusCompleted]) ∨
     (statusQueued :: (workerStep job env).trace =
        [statusQueued, statusProcessing, statusFailed])) ∧
    List.Chain' (fun a b => statusRank a < statusRank b)
      (statusQueued :: (workerStep job env).trace) ∧
    (statusQueued :: (workerStep job env).trace).Nodup := by
  rcases workerStep_trace_cases job env with h | h <;> rw [h]
  · refine ⟨Or.inl rfl, ?_, ?_⟩ <;>
      simp [List.chain'_cons, statusRank,
        statusQueued, statusProcessing, statusCompleted, statusFailed]
  · refine ⟨Or.inr rfl, ?_, ?_⟩ <;>
      simp [List.chain'_cons, statusRank,
        statusQueued, statusProcessing, statusCompleted, statusFailed]

/-- C5: on every exit path of the pipeline, the input artifact and the
normalized artifact (when one was created) are removed, and nothing except
those two job-owned temp artifacts is ever removed. -/
theorem terminal_state_temp_cleanup (job : Job) (env : Env)
    (hfp : job.filePath ≠ "") :
    job.filePath ∈ (workerStep job env).removed ∧
    (∀ np, (workerStep job env).normalizedPath = some np → np ≠ "" →
      np ∈ (workerStep job env).removed) ∧
    (∀ p, p ∈ (workerStep job env).removed →
      p = job.filePath ∨ (workerStep job env).normalizedPath = some p) := by
  have hpres : (workerStep job env).normalizedPath =
      (processJob job env).normalizedPath :=
    (workerStep_preserves job env).2.2.1
  have hshape : (workerStep job env).removed =
        cleanupTempFile job.filePath ++
          Option.elim (processJob job env).normalizedPath [] cleanupTempFile ∨
      (workerStep job env).removed =
        Option.elim (processJob job env).normalizedPath [] cleanupTempFile ++
          cleanupTempFile job.filePath := by
    rcases hr : (processJob job env).recovered with _ | m
    · rw [workerStep_of_no_recover job env hr]
      rcases processJob_removed job env with ⟨_, hrem⟩ | ⟨hne, _⟩
      · exact Or.inl hrem
      · exact absurd hr hne
    · rcases processJob_removed job env with ⟨hno, _⟩ | ⟨_, hrem⟩
      · rw [hr] at hno
        exact absurd hno (by simp)
      · rw [workerStep_removed_of_recover job env m hr, hrem]
        exact Or.inr rfl
  rw [hpres]
  have hcov := removed_shape_covers job.filePath
    (processJob job env).normalizedPath (workerStep job env).removed hshape
  exact ⟨hcov.1 hfp, hcov.2.1, hcov.2.2⟩

/-- C6: when processing a job recovers from a panic, the worker marks that
job Failed with the synthetic "Worker panic" error and removes its input
artifact, and the worker loop still processes every other job exactly as it
would alone: the faulting job affects no sibling and the loop resumes. -/
theorem worker_fault_containment (pre post : List (Job × Env)) (job : Job)
    (env : Env) (m : String) (h : (processJob job env).recovered = some m) :
    (workerStep job env).trace = [statusProcessing, statusFailed] ∧
    (workerStep job env).errMsg = some ("Worker panic: " ++ m) ∧
    (job.filePath ≠ "" → job.filePath ∈ (workerStep job env).removed) ∧
    worker (pre ++ (job, env) :: post) =
      worker pre ++ workerStep job env :: worker post := by
  have htr : (processJob job env).trace = [statusProcessing] := by
    rcases processJob_cases job env with ⟨hno, _⟩ | ⟨m2, hr2, htr2⟩
    · rw [h] at hno
      exact absurd hno (by simp)
    · exact htr2
  refine ⟨?_, workerStep_errMsg_of_recover job env m h, ?_, by simp [worker]⟩
  · rw [workerStep_trace_of_recover job env m h, htr]
    rfl
  · intro hfp
    rw [workerStep_removed_of_recover job env m h]
    simp [mem_cleanupTempFile, hfp]

/-- C2: for every job processed with a Drive client configured, Upload is
invoked at most 3 times; the sleeps between consecutive attempts are
exactly k*k time units after the k-th failed non-final attempt ([], [1] or
[1, 4] — none after the final attempt); a successful outcome is the
recorded reference; and the first successful attempt stops the loop with
that url. -/
theorem remote_upload_retry_policy (job : Job) (env : Env)
    (hd : env.hasDriveClient = true) :
    (workerStep job env).uploadCalls ≤ 3 ∧
    (workerStep job env).sleeps =
      (List.range ((workerStep job env).uploadCalls - 1)).map
        (fun k => (k + 1) * (k + 1)) ∧
    (∀ u, (retryUpload env.upload).outcome = UploadResult.success u →
      (workerStep job env).uploadCalls ≠ 0 →
      (workerStep job env).uploadRecorded = some u) ∧
    (∀ k u, 1 ≤ k → k ≤ 3 → env.upload k = CallOutcome.ok u →
      (∀ j, 1 ≤ j → j < k → ∃ e, env.upload j = CallOutcome.goError e) →
      (retryUpload env.upload).calls = k ∧
      (retryUpload env.upload).outcome = UploadResult.success u) := by
  have hc : (workerStep job env).uploadCalls = (processJob job env).uploadCalls :=
    (workerStep_preserves job env).2.2.2.2.2.1
  have hs : (workerStep job env).sleeps = (processJob job env).sleeps :=
    (workerStep_preserves job env).2.2.2.2.2.2.1
  have hu : (workerStep job env).uploadRecorded = (processJob job env).uploadRecorded :=
    (workerStep_preserves job env).2.2.2.2.2.2.2
  rw [hc, hs, hu]
  rcases processJob_upload_stats job env hd with ⟨h0, h1, h2⟩ | ⟨h0, h1, h2⟩
  · rw [h0, h1, h2]
    refine ⟨by norm_num, by simp, ?_, ?_⟩
    · intro u _ hne
      exact absurd rfl hne
    · intro k u hk1 hk3 hok hj
      exact retryUpload_first_success env.upload k u hk1 hk3 hok hj
  · rw [h0, h1]
    refine ⟨retryUpload_calls_le env.upload, retryUpload_sleeps env.upload, ?_, ?_⟩
    · intro u hsucc _
      exact h2 u hsucc
    · intro k u hk1 hk3 hok hj
      exact retryUpload_first_success env.upload k u hk1 hk3 hok hj

/-- C3: when the Normalizer, Transcriber and LocalSink all succeed, every
Drive upload attempt fails, and the metadata save does not panic, the job
still completes: terminal status Completed, with an empty Drive reference
on the result. -/
theorem remote_exhaustion_local_only (job : Job) (env : Env)
    (hn : ∃ np, env.normalize = CallOutcome.ok np)
    (ht : ∃ t, env.transcribe = CallOutcome.ok t)
    (hl : ∃ lp, env.saveLocal = CallOutcome.ok lp)
    (hd : env.hasDriveClient = true)
    (hu : ∀ k, 1 ≤ k → k ≤ 3 → ∃ e, env.upload k = CallOutcome.goError e)
    (hm : ∀ m, env.saveMeta ≠ CallOutcome.panicked m) :
    (workerStep job env).trace = [statusProcessing, statusCompleted] ∧
    ∃ r, (workerStep job env).result = some r ∧ r.gdriveURL = "" := by
  obtain ⟨np, hn⟩ := hn
  obtain ⟨t, ht⟩ := ht
  obtain ⟨lp, hl⟩ := hl
  obtain ⟨e1, he1⟩ := hu 1 (by norm_num) (by norm_num)
  obtain ⟨e2, he2⟩ := hu 2 (by norm_num) (by norm_num)
  obtain ⟨e3, he3⟩ := hu 3 (by norm_num) (by norm_num)
  have hex : retryUpload env.upload = ⟨3, [1 * 1, 2 * 2], UploadResult.exhausted⟩ := by
    unfold retryUpload
    rw [he1, he2, he3]
  have hpf : (processJob job env).recovered = none ∧
      (processJob job env).trace = [statusProcessing, statusCompleted] ∧
      ∃ r, (processJob job env).result = some r ∧ r.gdriveURL = "" := by
    unfold processJob finishJob
    rw [hn, ht, hl]
    rcases hdb : env.hasDB <;> rcases hsm : env.saveMeta with v | e | mm <;>
      simp [hd, hex, hdb, hsm]
    exact absurd hsm (hm mm)
  rw [workerStep_of_no_recover job env hpf.1]
  exact ⟨hpf.2.1, hpf.2.2⟩

/-- A string is "of the form" template… exactly when the template is a
prefix of it. -/
def hasTemplate (template s : String) : Bool :=
  template.data.isPrefixOf s.data

/-- An environment whose Normalizer call fails with message "boom"; the
later stages are never reached. -/
def envNormalizeFails : Env :=
  { normalize := CallOutcome.goError "boom"
    transcribe := CallOutcome.goError "unreached"
    saveLocal := CallOutcome.goError "unreached"
    hasDriveClient := false
    upload := fun _ => CallOutcome.goError "unreached"
    hasDB := false
    saveMeta := CallOutcome.ok ()
    now := 0 }

/-- C4 counterexample: when the Normalizer fails with message "boom", the
recorded failure detail is "Audio normalization failed: boom", which is not
of the form "normalization failed: …" — the detail template claimed by the
spec does not match the one the code writes. -/
theorem normalization_detail_template_counterexample :
    (workerStep ⟨"j1", "rec", "upload", "temp/in.wav"⟩ envNormalizeFails).errMsg =
      some "Audio normalization failed: boom" ∧
    hasTemplate "normalization failed: " "Audio normalization failed: boom" = false := by
  constructor
  · rfl
  · decide

/-- C4 (amended): when the Normalizer returns an error, the job's terminal
status is Failed with a detail of the form "Audio normalization failed: …"
(the error appended to that template), the input artifact is removed, and
the Transcriber, LocalSink and RemoteSink are never invoked. -/
theorem normalization_failure_handling (job : Job) (env : Env) (e : String)
    (hn : env.normalize = CallOutcome.goError e) (hfp : job.filePath ≠ "") :
    (workerStep job env).trace = [statusProcessing, statusFailed] ∧
    (workerStep job env).errMsg = some ("Audio normalization failed: " ++ e) ∧
    job.filePath ∈ (workerStep job env).removed ∧
    (workerStep job env).transcriberCalled = false ∧
    (workerStep job env).localSinkCalled = false ∧
    (workerStep job env).uploadCalls = 0 := by
  have hp : processJob job env =
      { trace := [statusProcessing, statusFailed]
        errMsg := some ("Audio normalization failed: " ++ e)
        removed := cleanupTempFile job.filePath } := by
    unfold processJob
    rw [hn]
  rw [workerStep_of_no_recover job env (by rw [hp])]
  rw [hp]
  refine ⟨rfl, rfl, ?_, rfl, rfl, rfl⟩
  simp [mem_cleanupTempFile, hfp]

/-- C7: whenever the Transcriber succeeds, the enrichment step attaches the
job's id and the processed-at time and recomputes the word count as the
number of whitespace-separated fields of the transcript text; in particular
"hello world" gives word count 2. -/
theorem transcription_result_enrichment (job : Job) (env : Env)
    (np : String) (t : TranscriberOutput)
    (hn : env.normalize = CallOutcome.ok np)
    (ht : env.transcribe = CallOutcome.ok t) :
    (∃ r, (workerStep job env).enriched = some r ∧
      r.jobID = job.id ∧
      r.wordCount = (stringFields t.text).length ∧
      r.processedAt = env.now ∧
      r.text = t.text) ∧
    (stringFields "hello world").length = 2 := by
  constructor
  · have hpres : (workerStep job env).enriched = (processJob job env).enriched :=
      (workerStep_preserves job env).2.1
    rw [hpres]
    unfold processJob finishJob
    rw [hn, ht]
    repeat' split
    all_goals try simp_all
    all_goals (rcases huo : (retryUpload env.upload).outcome <;> simp_all [huo])
  · decide

/-- C8 counterexample: the WorkerPool offers no stop operation — none of
its methods closes the job queue channel. -/
theorem workerpool_stop_missing :
    ¬ ∃ op : WorkerPoolOp, opClosesQueue op = true := by
  rintro ⟨op, hop⟩
  cases op <;> simp [opClosesQueue] at hop

/-- C8 (amended): the pool provides no stop operation and never closes the
queue itself; the workers range over the queue channel, so if the queue
were closed they would drain every remaining item to a terminal state
(Completed or Failed) and exit, and no dequeued job is dropped: each yields
exactly one processed outcome. -/
theorem worker_drains_all_queued (jobs : List (Job × Env)) :
    (worker jobs).length = jobs.length ∧
    ∀ r ∈ worker jobs,
      r.trace = [statusProcessing, statusCompleted] ∨
      r.trace = [statusProcessing, statusFailed] := by
  constructor
  · simp [worker]
  · intro r hr
    simp only [worker, List.mem_map] at hr
    obtain ⟨p, hp, rfl⟩ := hr
    exact workerStep_trace_cases p.1 p.2

/-- The retained entries of one sweep are exactly the directories and the
entries whose age does not exceed maxAge. -/
theorem cleanOldFiles_retained (now maxAge : Int) (files : List FileEntry) :
    (cleanOldFiles now maxAge files).1 =
      files.filter (fun f => f.isDir || decide (now - f.modTime ≤ maxAge)) := by
  induction files with
  | nil => rfl
  | cons f rest ih =>
    cases hd : f.isDir
    · by_cases hage : now - f.modTime > maxAge
      · simp [cleanOldFiles, List.filter_cons, hd, ih, hage, not_le.mpr hage]
        rw [if_neg (by omega)]
      · simp [cleanOldFiles, List.filter_cons, hd, ih, hage, not_lt.mp hage]
        rw [if_pos (by omega)]
    · simp [cleanOldFiles, List.filter_cons, hd, ih]

/-- C9: on every janitor sweep, every regular file whose modification age
strictly exceeds the configured max age is removed, every entry whose age
does not exceed it is retained, directories are never removed; and the
first sweep runs synchronously at startup, before the first tick. -/
theorem janitor_sweep_policy (now maxAge : Int) (files : List FileEntry)
    (numTicks : Nat) :
    (∀ f, f ∈ files → f.isDir = false → now - f.modTime > maxAge →
      f ∉ (cleanOldFiles now maxAge files).1) ∧
    (∀ f, f ∈ files → now - f.modTime ≤ maxAge →
      f ∈ (cleanOldFiles now maxAge files).1) ∧
    (∀ f, f ∈ files → f.isDir = true →
      f ∈ (cleanOldFiles now maxAge files).1) ∧
    (schedulerSweeps numTicks).head? = some SweepTrigger.initial := by
  rw [cleanOldFiles_retained]
  refine ⟨?_, ?_, ?_, rfl⟩
  · intro f hf hdir hage
    simp only [List.mem_filter, hdir, Bool.false_or, decide_eq_true_eq]
    intro hcon
    exact absurd hcon.2 (not_le.mpr hage)
  · intro f hf hage
    simp only [List.mem_filter]
    refine ⟨hf, ?_⟩
    simp only [Bool.or_eq_true, decide_eq_true_eq]
    right
    omega
  · intro f hf hdir
    simp [List.mem_filter, hf, hdir]

/-- The last element of a mapped list is the image of the last element. -/
theorem getLastQ_map {A B : Type} (f : A → B) (l : List A) :
    (l.map f).getLast? = Option.map f l.getLast? := by
  induction l with
  | nil => rfl
  | cons a rest ih =>
    cases rest with
    | nil => rfl
    | cons b t => simpa using ih

/-- C10: the Transcribe conversion sets the result's duration to the End
time of the last parsed Whisper segment, and to 0 when there are no
segments. -/
theorem transcribe_duration_from_segments (out : WhisperOutput) :
    (out.segments = [] → (transcribeConvert out).duration = 0) ∧
    (∀ s, out.segments.getLast? = some s →
      (transcribeConvert out).duration = s.endTime) := by
  constructor
  · intro h
    simp [transcribeConvert, h]
  · intro s hs
    simp [transcribeConvert, getLastQ_map, hs]

/-! Concrete data for closed evaluations. -/

/-- A concrete job. -/
def sampleJob : Job := ⟨"job-42", "meeting", "upload", "temp/job-42.opus"⟩

/-- An environment where the first upload attempt fails and the second
succeeds. -/
def envRetrySecond : Env :=
  { normalize := CallOutcome.ok "temp/normalized_a.wav"
    transcribe := CallOutcome.ok ⟨"hello world", "en", 2, [⟨0, 2, "hello world"⟩]⟩
    saveLocal := CallOutcome.ok "transcripts/meeting.txt"
    hasDriveClient := true
    upload := fun k => if k = 1 then CallOutcome.goError "quota" else CallOutcome.ok "drive://f1"
    hasDB := false
    saveMeta := CallOutcome.ok ()
    now := 7 }

/-- An environment where every upload attempt fails but everything else
succeeds. -/
def envRemoteDown : Env :=
  { normalize := CallOutcome.ok "temp/normalized_b.wav"
    transcribe := CallOutcome.ok ⟨"hello world", "en", 2, [⟨0, 2, "hello world"⟩]⟩
    saveLocal := CallOutcome.ok "transcripts/meeting.txt"
    hasDriveClient := true
    upload := fun _ => CallOutcome.goError "offline"
    hasDB := true
    saveMeta := CallOutcome.ok ()
    now := 7 }

/-- An environment whose Transcriber panics. -/
def envTranscriberPanics : Env :=
  { normalize := CallOutcome.ok "temp/normalized_c.wav"
    transcribe := CallOutcome.panicked "index out of range"
    saveLocal := CallOutcome.ok "unreached"
    hasDriveClient := false
    upload := fun _ => CallOutcome.goError "unreached"
    hasDB := false
    saveMeta := CallOutcome.ok ()
    now := 0 }

/-- A file entry older than the max age used below. -/
def oldEntry : FileEntry := ⟨"temp/orphan.wav", false, 2, 1024⟩

/-- A file entry younger than the max age used below. -/
def youngEntry : FileEntry := ⟨"temp/fresh.wav", false, 9, 2048⟩

/-- A concrete parsed Whisper output with one segment ending at 2. -/
def sampleWhisperOutput : WhisperOutput :=
  ⟨" hello world ", "en", [⟨0, 0, 2, "hello world"⟩]⟩

/-! Witnesses. -/

/-- C2 witness: with a Drive client, a first-attempt error and a
second-attempt success give two calls and the recorded url. -/
theorem remote_upload_retry_policy_witness :
    (workerStep sampleJob envRetrySecond).uploadCalls ≤ 3 ∧
    (retryUpload envRetrySecond.upload).calls = 2 ∧
    (retryUpload envRetrySecond.upload).outcome = UploadResult.success "drive://f1" := by
  have h := remote_upload_retry_policy sampleJob envRetrySecond rfl
  have hj : ∀ j, 1 ≤ j → j < 2 → ∃ e, envRetrySecond.upload j = CallOutcome.goError e := by
    intro j h1 h2
    interval_cases j
    exact ⟨"quota", rfl⟩
  have hfirst := h.2.2.2 2 "drive://f1" (by norm_num) (by norm_num) rfl hj
  exact ⟨h.1, hfirst.1, hfirst.2⟩

/-- C3 witness: with the remote sink permanently failing, the concrete job
completes with an empty Drive reference. -/
theorem remote_exhaustion_local_only_witness :
    (workerStep sampleJob envRemoteDown).trace = [statusProcessing, statusCompleted] ∧
    ∃ r, (workerStep sampleJob envRemoteDown).result = some r ∧ r.gdriveURL = "" :=
  remote_exhaustion_local_only sampleJob envRemoteDown
    ⟨"temp/normalized_b.wav", rfl⟩
    ⟨⟨"hello world", "en", 2, [⟨0, 2, "hello world"⟩]⟩, rfl⟩
    ⟨"transcripts/meeting.txt", rfl⟩ rfl
    (fun _ _ _ => ⟨"offline", rfl⟩)
    (fun _ h => CallOutcome.noConfusion h)

/-- C4 witness: the amended normalization-failure behaviour at a concrete
job and error. -/
theorem normalization_failure_handling_witness :
    (workerStep ⟨"j2", "rec2", "upload", "temp/in2.wav"⟩ envNormalizeFails).trace =
      [statusProcessing, statusFailed] ∧
    "temp/in2.wav" ∈
      (workerStep ⟨"j2", "rec2", "upload", "temp/in2.wav"⟩ envNormalizeFails).removed := by
  have h := normalization_failure_handling ⟨"j2", "rec2", "upload", "temp/in2.wav"⟩
    envNormalizeFails "boom" rfl (by decide)
  exact ⟨h.1, h.2.2.1⟩

/-- C5 witness: the concrete job's input artifact is removed on a full
successful run. -/
theorem terminal_state_temp_cleanup_witness :
    sampleJob.filePath ∈ (workerStep sampleJob envRetrySecond).removed :=
  (terminal_state_temp_cleanup sampleJob envRetrySecond (by decide)).1

/-- C6 witness: a Transcriber panic at a concrete job is contained and
converted to a Failed job. -/
theorem worker_fault_containment_witness :
    (workerStep sampleJob envTranscriberPanics).trace =
      [statusProcessing, statusFailed] ∧
    (workerStep sampleJob envTranscriberPanics).errMsg =
      some ("Worker panic: " ++ "index out of range") ∧
    worker [(sampleJob, envTranscriberPanics)] =
      [workerStep sampleJob envTranscriberPanics] := by
  have h := worker_fault_containment [] [] sampleJob envTranscriberPanics
    "index out of range" rfl
  exact ⟨h.1, h.2.1, h.2.2.2⟩

/-- C7 witness: the enrichment of the "hello world" transcript yields word
count 2. -/
theorem transcription_result_enrichment_witness :
    ∃ r, (workerStep sampleJob envRetrySecond).enriched = some r ∧
      r.wordCount = 2 := by
  have h := transcription_result_enrichment sampleJob envRetrySecond
    "temp/normalized_a.wav" ⟨"hello world", "en", 2, [⟨0, 2, "hello world"⟩]⟩ rfl rfl
  obtain ⟨⟨r, hr, _, hwc, _, _⟩, hhw⟩ := h
  exact ⟨r, hr, hwc.trans hhw⟩

/-- C8 witness: a one-element closed queue is fully drained to a terminal
state. -/
theorem worker_drains_all_queued_witness :
    (worker [(sampleJob, envNormalizeFails)]).length = 1 ∧
    ((workerStep sampleJob envNormalizeFails).trace =
        [statusProcessing, statusCompleted] ∨
     (workerStep sampleJob envNormalizeFails).trace =
        [statusProcessing, statusFailed]) := by
  have h := worker_drains_all_queued [(sampleJob, envNormalizeFails)]
  refine ⟨h.1, h.2 (workerStep sampleJob envNormalizeFails) ?_⟩
  simp [worker]

/-- C9 witness: with now = 10 and max age 3, the entry of age 8 is removed
and the entry of age 1 is retained. -/
theorem janitor_sweep_policy_witness :
    oldEntry ∉ (cleanOldFiles 10 3 [oldEntry, youngEntry]).1 ∧
    youngEntry ∈ (cleanOldFiles 10 3 [oldEntry, youngEntry]).1 := by
  have h := janitor_sweep_policy 10 3 [oldEntry, youngEntry] 0
  exact ⟨h.1 oldEntry (by decide) rfl (by decide),
    h.2.1 youngEntry (by decide) (by decide)⟩

/-- C10 witness: the one-segment output ending at 2 gives duration 2. -/
theorem transcribe_duration_from_segments_witness :
    (transcribeConvert sampleWhisperOutput).duration = 2 := by
  have h := (transcribe_duration_from_segments sampleWhisperOutput).2
    ⟨0, 0, 2, "hello world"⟩ rfl
  exact h

end AudioTranscription
